import Mathlib

/-!
Shallow embedding of the order-taking domain of this repository
(a TypeScript port of the "Domain Modeling Made Functional" PlaceOrder
workflow) together with proofs about the spec's claims.

Modelling conventions:
* a TypeScript `number` is embedded as `ℚ`; `Number.isInteger i` becomes
  `i.den = 1`; numeric text inside error messages uses `ℚ`'s `ToString`
  (the exact decimal rendering of JavaScript is not load-bearing for any
  claim, only which message is propagated where);
* a TypeScript union `T | SomeError` returned by a fallible function is
  embedded as `Except SomeError T`;
* `null`/`undefined` inputs to string constructors are not representable:
  `isEmptyString` keeps only its empty-string case;
* JavaScript regular expressions built from plain string literals are
  embedded after JavaScript's own string-escape semantics: in a string
  literal the unrecognized escape `\d` denotes the character `d`, so
  `new RegExp('W\d{4}')` is the pattern `Wd{4}`, which `RegExp.test`
  matches, unanchored, against any substring — i.e. it accepts exactly
  the strings containing `"Wdddd"`;
* `Promise`s are erased: the asynchronous address check becomes a plain
  function into `Except`;
* `splitErr` and `BillingAmount.sumPrices` are imported by the workflow
  from a module that is not among the provided sources; they are modelled
  from the spec (marked in their doc comments).
-/

/-- Boolean test that `pat` occurs at the start of `s` (over character lists). -/
def charsStartWith : List Char → List Char → Bool
  | [], _ => true
  | _ :: _, [] => false
  | p :: ps, c :: cs => p == c && charsStartWith ps cs

/-- Boolean test that `pat` occurs somewhere inside `s` (over character lists). -/
def charsContain (pat : List Char) : List Char → Bool
  | [] => charsStartWith pat []
  | c :: cs => charsStartWith pat (c :: cs) || charsContain pat cs

/-- Unanchored substring test, the semantics of `RegExp.test` for a pattern
that is a literal string of ordinary characters. -/
def strTestContains (pat s : String) : Bool :=
  charsContain pat.toList s.toList

/-- Embedding of `new RegExp('W\d{4}').test`: the JS string literal collapses
`\d` to `d`, so the pattern is the literal text `Wdddd`, tested unanchored. -/
def widgetCodeTest (s : String) : Bool := strTestContains "Wdddd" s

/-- Embedding of `new RegExp('G\d{3}').test`: pattern is the literal text
`Gddd`, tested unanchored. -/
def gizmoCodeTest (s : String) : Bool := strTestContains "Gddd" s

/-- Embedding of `new RegExp('\d{5}').test`: pattern is the literal text
`ddddd`, tested unanchored. -/
def zipCodeTest (s : String) : Bool := strTestContains "ddddd" s

/-- Embedding of JavaScript `String.prototype.startsWith` (defined over
character lists so that it evaluates by reduction). -/
def strStartsWith (s pre : String) : Bool := charsStartWith pre.toList s.toList

/-- Embedding of `isEmptyString` (the `null`/`undefined` cases are not
representable for a Lean `String`). -/
def isEmptyString (str : String) : Bool := str = ""

/-- Errors of `ConstrainedType.createString`. -/
inductive CreateStringError where
  | empty (msg : String)
  | tooLong (msg : String)
deriving DecidableEq

/-- Message carried by a `CreateStringError` (the `msg` field of the TS record). -/
def CreateStringError.msg : CreateStringError → String
  | .empty m => m
  | .tooLong m => m

/-- Embedding of `ConstrainedType.createString`. -/
def ConstrainedType.createString (fieldName : String) (maxLen : Nat) (str : String) :
    Except CreateStringError String :=
  if isEmptyString str then
    .error (.empty s!"{fieldName} must not be null or undefined or empty")
  else if str.length > maxLen then
    .error (.tooLong s!"{fieldName} must not be more than {maxLen} chars")
  else .ok str

/-- Result type of `ConstrainedType.createStringOption`
(the TS union `string | null | CreateStringTooLongError`). -/
inductive CreateStringOptionResult where
  | value (s : String)
  | absent
  | tooLong (msg : String)
deriving DecidableEq

/-- Embedding of `ConstrainedType.createStringOption`. -/
def ConstrainedType.createStringOption (fieldName : String) (maxLen : Nat) (str : String) :
    CreateStringOptionResult :=
  match ConstrainedType.createString fieldName maxLen str with
  | .ok s => .value s
  | .error (.empty _) => .absent
  | .error (.tooLong m) => .tooLong m

/-- Errors of `ConstrainedType.createInt`. -/
inductive CreateIntError where
  | tooSmall (msg : String)
  | tooBig (msg : String)
  | notInt (msg : String)
deriving DecidableEq

/-- Message carried by a `CreateIntError`. -/
def CreateIntError.msg : CreateIntError → String
  | .tooSmall m => m
  | .tooBig m => m
  | .notInt m => m

/-- Embedding of `ConstrainedType.createInt` (bound checks first, in source
order, then the `Number.isInteger` check). -/
def ConstrainedType.createInt (fieldName : String) (minVal maxVal i : ℚ) :
    Except CreateIntError ℚ :=
  if i < minVal then .error (.tooSmall s!"{i}: Must not be less than {minVal}")
  else if i > maxVal then .error (.tooBig s!"{i}: Must not be greater than {maxVal}")
  else if ¬ (i.den = 1) then .error (.notInt s!"{i}: Must be integer")
  else .ok i

/-- Errors of `ConstrainedType.createDecimal`. -/
inductive CreateDecimalError where
  | tooSmall (msg : String)
  | tooBig (msg : String)
  | notDecimal (msg : String)
deriving DecidableEq

/-- Message carried by a `CreateDecimalError`. -/
def CreateDecimalError.msg : CreateDecimalError → String
  | .tooSmall m => m
  | .tooBig m => m
  | .notDecimal m => m

/-- Embedding of `ConstrainedType.createDecimal`. Note the source re-uses the
`Number.isInteger` test here (returning `NotDecimal` for every non-integer),
exactly as written. -/
def ConstrainedType.createDecimal (fieldName : String) (minVal maxVal i : ℚ) :
    Except CreateDecimalError ℚ :=
  if i < minVal then .error (.tooSmall s!"{i}: Must not be less than {minVal}")
  else if i > maxVal then .error (.tooBig s!"{i}: Must not be greater than {maxVal}")
  else if ¬ (i.den = 1) then .error (.notDecimal s!"{i}: Must be decimal")
  else .ok i

/-- Errors of `ConstrainedType.createLike`. -/
inductive CreateLikeError where
  | empty (msg : String)
  | doesNotMatch (msg : String)
deriving DecidableEq

/-- Message carried by a `CreateLikeError`. -/
def CreateLikeError.msg : CreateLikeError → String
  | .empty m => m
  | .doesNotMatch m => m

/-- Embedding of `ConstrainedType.createLike`; the regex is passed as its
`test` function. Both messages are the same text in the source. -/
def ConstrainedType.createLike (fieldName : String) (test : String → Bool) (str : String) :
    Except CreateLikeError String :=
  if isEmptyString str then .error (.empty s!"{str}: Must not be null or empty")
  else if ¬ test str then .error (.doesNotMatch s!"{str}: Must not be null or empty")
  else .ok str

/-- Embedding of `String50.create`. -/
def String50.create (fieldName str : String) : Except CreateStringError String :=
  ConstrainedType.createString fieldName 50 str

/-- Embedding of `OrderId.create`. -/
def OrderId.create (fieldName str : String) : Except CreateStringError String :=
  ConstrainedType.createString fieldName 50 str

/-- Embedding of `OrderLineId.create`. -/
def OrderLineId.create (fieldName str : String) : Except CreateStringError String :=
  ConstrainedType.createString fieldName 50 str

/-- Embedding of `ZipCode.create`. -/
def ZipCode.create (fieldName str : String) : Except CreateLikeError String :=
  ConstrainedType.createLike fieldName zipCodeTest str

/-- Embedding of the TS tagged union `ProductCode = WidgetCode | GizmoCode`;
each variant carries its `code` string. -/
inductive ProductCode where
  | widget (code : String)
  | gizmo (code : String)
deriving DecidableEq

/-- Embedding of `ProductCode.value`. -/
def ProductCode.value : ProductCode → String
  | .widget c => c
  | .gizmo c => c

/-- Embedding of `WidgetCode.create`. -/
def WidgetCode.create (fieldName str : String) : Except CreateLikeError ProductCode :=
  (ConstrainedType.createLike fieldName widgetCodeTest str).map ProductCode.widget

/-- Embedding of `GizmoCode.create`. -/
def GizmoCode.create (fieldName str : String) : Except CreateLikeError ProductCode :=
  (ConstrainedType.createLike fieldName gizmoCodeTest str).map ProductCode.gizmo

/-- Errors of `ProductCode.create` (the TS union
`CreateLikeError | CreateProductCodeUnknownFormatError`, flattened). -/
inductive CreateProductCodeError where
  | empty (msg : String)
  | doesNotMatch (msg : String)
  | unknownFormat (msg : String)
deriving DecidableEq

/-- Message carried by a `CreateProductCodeError`. -/
def CreateProductCodeError.msg : CreateProductCodeError → String
  | .empty m => m
  | .doesNotMatch m => m
  | .unknownFormat m => m

/-- Injection of a `CreateLikeError` into the `ProductCode.create` error union. -/
def CreateLikeError.toProductCodeError : CreateLikeError → CreateProductCodeError
  | .empty m => .empty m
  | .doesNotMatch m => .doesNotMatch m

/-- Embedding of `ProductCode.create`: dispatch on the first character, then
delegate to the widget or gizmo constructor. -/
def ProductCode.create (fieldName code : String) : Except CreateProductCodeError ProductCode :=
  if strStartsWith code "W" then (WidgetCode.create fieldName code).mapError CreateLikeError.toProductCodeError
  else if strStartsWith code "G" then (GizmoCode.create fieldName code).mapError CreateLikeError.toProductCodeError
  else .error (.unknownFormat s!"{fieldName}: Format not recognized \x27{code}\x27")

/-- Embedding of the TS tagged union `OrderQuantity = UnitQuantity | KilogramQuantity`. -/
inductive OrderQuantity where
  | unit (quantity : ℚ)
  | kilogram (quantity : ℚ)
deriving DecidableEq

/-- The `quantity` field, shared by both variants in the TS records. -/
def OrderQuantity.quantity : OrderQuantity → ℚ
  | .unit q => q
  | .kilogram q => q

/-- Embedding of `OrderQuantity.value`. -/
def OrderQuantity.value (q : OrderQuantity) : ℚ := q.quantity

/-- Embedding of `UnitQuantity.create` (bounds 1 and 1000 in the source). -/
def UnitQuantity.create (fieldName : String) (v : ℚ) : Except CreateIntError OrderQuantity :=
  (ConstrainedType.createInt fieldName 1 1000 v).map OrderQuantity.unit

/-- Embedding of `KilogramQuantity.create`. The lower bound literal `0.5` of
the source is written `mkRat 1 2` (the same rational) so that it evaluates
by reduction. -/
def KilogramQuantity.create (fieldName : String) (v : ℚ) : Except CreateDecimalError OrderQuantity :=
  (ConstrainedType.createDecimal fieldName (mkRat 1 2) 100 v).map OrderQuantity.kilogram

/-- Embedding of `OrderQuantity.create`: the product code's tag selects the
constructor; the error is the TS union `CreateIntError | CreateDecimalError`. -/
def OrderQuantity.create (fieldName : String) (productCode : ProductCode) (v : ℚ) :
    Except (Sum CreateIntError CreateDecimalError) OrderQuantity :=
  match productCode with
  | .widget _ => (UnitQuantity.create fieldName v).mapError Sum.inl
  | .gizmo _ => (KilogramQuantity.create fieldName v).mapError Sum.inr

/-- Message carried by an `OrderQuantity.create` error. -/
def quantityErrMsg : Sum CreateIntError CreateDecimalError → String
  | .inl e => e.msg
  | .inr e => e.msg

/-- Embedding of `Price.create` (bounds 0 and 1000). -/
def Price.create (v : ℚ) : Except CreateDecimalError ℚ :=
  ConstrainedType.createDecimal "Price" 0 1000 v

/-- Embedding of `Price.multiply`. -/
def Price.multiply (qty : OrderQuantity) (price : ℚ) : Except CreateDecimalError ℚ :=
  Price.create (qty.quantity * price)

/-- Embedding of `BillingAmount.create` (bounds 0 and 10000). -/
def BillingAmount.create (v : ℚ) : Except CreateDecimalError ℚ :=
  ConstrainedType.createDecimal "BillingAmount" 0 10000 v

/-- Embedding of `BillingAmount.value` (identity on the underlying number). -/
def BillingAmount.value (v : ℚ) : ℚ := v

/-- Modelled from the spec: `BillingAmount.sumPrices` is imported by the
workflow from the repository's simple-types module but is absent from the
provided sources; per the spec, billing-amount summation sums the line
prices and re-runs the bounded-decimal check on the result. -/
def BillingAmount.sumPrices (prices : List ℚ) : Except CreateDecimalError ℚ :=
  BillingAmount.create (prices.foldl (fun a b => a + b) 0)

/-- Modelled from the spec: `splitErr` is imported by the workflow from the
repository's simple-types module but is absent from the provided sources;
per the spec, the per-item results are collected in order, split into the
list of successes and the list of errors ("all line validations are
attempted and their errors collected"). -/
def splitErr {ε α : Type} (xs : List (Except ε α)) : List α × List ε :=
  (xs.filterMap (fun x => match x with | .ok a => some a | .error _ => none),
   xs.filterMap (fun x => match x with | .ok _ => none | .error e => some e))

/-- Embedding of `PersonalName` (compound-types). -/
structure PersonalName where
  firstName : String
  lastName : String
deriving DecidableEq

/-- Embedding of `CustomerInfo` (compound-types). -/
structure CustomerInfo where
  name : PersonalName
  emailAddress : String
deriving DecidableEq

/-- Embedding of `Address` (compound-types); address lines 2 to 4 are
`String50 | null` in the source, hence `Option String` here. -/
structure Address where
  addressLine1 : String
  addressLine2 : Option String
  addressLine3 : Option String
  addressLine4 : Option String
  city : String
  zipCode : String
deriving DecidableEq

/-- Embedding of `UnvalidatedCustomerInfo` (public-types). -/
structure UnvalidatedCustomerInfo where
  firstName : String
  lastName : String
  emailAddress : String
  vipStatus : String
deriving DecidableEq

/-- Embedding of `UnvalidatedAddress` (public-types); the type-level
`isValidated: false` marker is dropped. -/
structure UnvalidatedAddress where
  addressLine1 : String
  addressLine2 : String
  addressLine3 : String
  addressLine4 : String
  city : String
  zipCode : String
  state : String
  country : String
deriving DecidableEq

/-- Embedding of `CheckedAddress` (the unvalidated address fields with the
`isValidated: true` marker, which is dropped here). -/
structure CheckedAddress where
  addressLine1 : String
  addressLine2 : String
  addressLine3 : String
  addressLine4 : String
  city : String
  zipCode : String
  state : String
  country : String
deriving DecidableEq

/-- Embedding of `UnvalidatedOrderLine` (public-types). -/
structure UnvalidatedOrderLine where
  orderLineId : String
  productCode : String
  quantity : ℚ
deriving DecidableEq

/-- Embedding of `UnvalidatedOrder` (public-types). -/
structure UnvalidatedOrder where
  orderId : String
  customerInfo : UnvalidatedCustomerInfo
  shippingAddress : UnvalidatedAddress
  billingAddress : UnvalidatedAddress
  lines : List UnvalidatedOrderLine
deriving DecidableEq

/-- Embedding of `OrderAcknowledgmentSent` (public-types). -/
structure OrderAcknowledgmentSent where
  orderId : String
  emailAddress : String
deriving DecidableEq

/-- Embedding of `PricedOrderLine` (public-types). -/
structure PricedOrderLine where
  orderLineId : String
  productCode : ProductCode
  quantity : OrderQuantity
  linePrice : ℚ
deriving DecidableEq

/-- Embedding of `PricedOrder` (public-types). -/
structure PricedOrder where
  orderId : String
  customerInfo : CustomerInfo
  shippingAddress : Address
  billingAddress : Address
  amountToBill : ℚ
  lines : List PricedOrderLine
deriving DecidableEq

/-- Embedding of `BillableOrderPlaced` (public-types). -/
structure BillableOrderPlaced where
  orderId : String
  billingAddress : Address
  amountToBill : ℚ
deriving DecidableEq

/-- Embedding of the TS union
`PlaceOrderEvent = OrderPlaced | BillableOrderPlaced | OrderAcknowledgmentSent`
(`OrderPlaced` is an alias of `PricedOrder` in the source). -/
inductive PlaceOrderEvent where
  | orderPlaced (p : PricedOrder)
  | billableOrderPlaced (b : BillableOrderPlaced)
  | acknowledgmentSent (a : OrderAcknowledgmentSent)
deriving DecidableEq

/-- Embedding of `ValidationError` (public-types). -/
structure ValidationError where
  msg : String
deriving DecidableEq

/-- Embedding of `PricingError` (public-types). -/
structure PricingError where
  msg : String
deriving DecidableEq

/-- Embedding of `ServiceInfo` (public-types). -/
structure ServiceInfo where
  name : String
  endpoint : String
deriving DecidableEq

/-- Embedding of the TS union
`PlaceOrderError = ValidationError | PricingError | RemoteServiceError`
(the remote-service `exception` payload, typed `FixMe` in the source, is
dropped). -/
inductive PlaceOrderError where
  | validation (msg : String)
  | pricing (msg : String)
  | remoteService (service : ServiceInfo)
deriving DecidableEq

/-- Errors of the address-existence capability
(`InvalidFormat | AddressNotFound`, each `Err & {errType}` in the source). -/
inductive AddressValidationError where
  | invalidFormat (msg : String)
  | addressNotFound (msg : String)
deriving DecidableEq

/-- Message carried by an `AddressValidationError`. -/
def AddressValidationError.msg : AddressValidationError → String
  | .invalidFormat m => m
  | .addressNotFound m => m

/-- Embedding of `ValidatedOrderLine`. -/
structure ValidatedOrderLine where
  orderLineId : String
  productCode : ProductCode
  quantity : OrderQuantity
deriving DecidableEq

/-- Embedding of `ValidatedOrder`. -/
structure ValidatedOrder where
  orderId : String
  customerInfo : CustomerInfo
  shippingAddress : Address
  billingAddress : Address
  lines : List ValidatedOrderLine
deriving DecidableEq

/-- Embedding of `toCustomerInfo`. -/
def toCustomerInfo (u : UnvalidatedCustomerInfo) : Except ValidationError CustomerInfo :=
  match String50.create "FirstName" u.firstName with
  | .error e => .error ⟨e.msg⟩
  | .ok firstName =>
    match String50.create "LastName" u.lastName with
    | .error e => .error ⟨e.msg⟩
    | .ok lastName =>
      match String50.create "EmailAddress" u.emailAddress with
      | .error e => .error ⟨e.msg⟩
      | .ok emailAddress => .ok { name := { firstName := firstName, lastName := lastName }, emailAddress := emailAddress }

/-- Embedding of `toAddress`. Note the source passes the field name
`AddressLine4` for the city and zip-code checks as well, and uses the
non-optional `String50.create` for every address line. -/
def toAddress (checkedAddress : CheckedAddress) : Except ValidationError Address :=
  match String50.create "AddressLine1" checkedAddress.addressLine1 with
  | .error e => .error ⟨e.msg⟩
  | .ok addressLine1 =>
    match String50.create "AddressLine2" checkedAddress.addressLine2 with
    | .error e => .error ⟨e.msg⟩
    | .ok addressLine2 =>
      match String50.create "AddressLine3" checkedAddress.addressLine3 with
      | .error e => .error ⟨e.msg⟩
      | .ok addressLine3 =>
        match String50.create "AddressLine4" checkedAddress.addressLine4 with
        | .error e => .error ⟨e.msg⟩
        | .ok addressLine4 =>
          match String50.create "AddressLine4" checkedAddress.city with
          | .error e => .error ⟨e.msg⟩
          | .ok city =>
            match ZipCode.create "AddressLine4" checkedAddress.zipCode with
            | .error e => .error ⟨e.msg⟩
            | .ok zipCode =>
              .ok { addressLine1 := addressLine1, addressLine2 := some addressLine2,
                    addressLine3 := some addressLine3, addressLine4 := some addressLine4,
                    city := city, zipCode := zipCode }

/-- Embedding of `toCheckedAddress` (the `await` is erased). -/
def toCheckedAddress (checkAddress : UnvalidatedAddress → Except AddressValidationError CheckedAddress)
    (address : UnvalidatedAddress) : Except ValidationError CheckedAddress :=
  match checkAddress address with
  | .error e => .error ⟨e.msg⟩
  | .ok checked => .ok checked

/-- Embedding of `toOrderId`. -/
def toOrderId (orderIdStr : String) : Except ValidationError String :=
  match OrderId.create "OrderId" orderIdStr with
  | .error e => .error ⟨e.msg⟩
  | .ok orderId => .ok orderId

/-- Embedding of `toOrderLineId`. -/
def toOrderLineId (orderId : String) : Except ValidationError String :=
  match OrderLineId.create "OrderLineId" orderId with
  | .error e => .error ⟨e.msg⟩
  | .ok orderLineId => .ok orderLineId

/-- Embedding of `toProductCode`. The inlined `checkProduct` helper builds
its message by string-concatenating the product-code record, which in
JavaScript renders as `[object Object]`. -/
def toProductCode (checkProductCodeExists : ProductCode → Bool) (code : String) :
    Except ValidationError ProductCode :=
  match ProductCode.create "ProductCode" code with
  | .error e => .error ⟨e.msg⟩
  | .ok productCode =>
    if checkProductCodeExists productCode then .ok productCode
    else .error ⟨"Invalid: [object Object]"⟩

/-- Embedding of `toOrderQuantity`. -/
def toOrderQuantity (productCode : ProductCode) (quantity : ℚ) :
    Except ValidationError OrderQuantity :=
  match OrderQuantity.create "OrderQuantity" productCode quantity with
  | .error e => .error ⟨quantityErrMsg e⟩
  | .ok orderQuantity => .ok orderQuantity

/-- Embedding of `toValidateOrderLine`. -/
def toValidateOrderLine (checkProductExists : ProductCode → Bool)
    (u : UnvalidatedOrderLine) : Except ValidationError ValidatedOrderLine :=
  match toOrderLineId u.orderLineId with
  | .error e => .error e
  | .ok orderLineId =>
    match toProductCode checkProductExists u.productCode with
    | .error e => .error e
    | .ok productCode =>
      match toOrderQuantity productCode u.quantity with
      | .error e => .error e
      | .ok quantity => .ok { orderLineId := orderLineId, productCode := productCode, quantity := quantity }

/-- Embedding of `validateOrder` (the `await`s are erased; the two address
checks stay sequential). -/
def validateOrder (checkProductCodeExists : ProductCode → Bool)
    (checkAddressExists : UnvalidatedAddress → Except AddressValidationError CheckedAddress)
    (unvalidatedOrder : UnvalidatedOrder) : Except ValidationError ValidatedOrder :=
  match toOrderId unvalidatedOrder.orderId with
  | .error e => .error e
  | .ok orderId =>
    match toCustomerInfo unvalidatedOrder.customerInfo with
    | .error e => .error e
    | .ok customerInfo =>
      match toCheckedAddress checkAddressExists unvalidatedOrder.shippingAddress with
      | .error e => .error e
      | .ok checkedShippingAddress =>
        match toAddress checkedShippingAddress with
        | .error e => .error e
        | .ok shippingAddress =>
          match toCheckedAddress checkAddressExists unvalidatedOrder.billingAddress with
          | .error e => .error e
          | .ok checkedBillingAddress =>
            match toAddress checkedBillingAddress with
            | .error e => .error e
            | .ok billingAddress =>
              match splitErr (unvalidatedOrder.lines.map (toValidateOrderLine checkProductCodeExists)) with
              | (_, e :: _) => .error e
              | (lines, []) =>
                .ok { orderId := orderId, customerInfo := customerInfo,
                      shippingAddress := shippingAddress, billingAddress := billingAddress,
                      lines := lines }

/-- Embedding of `toPricedOrderLine`. -/
def toPricedOrderLine (getProductPrice : ProductCode → ℚ)
    (validatedOrderLine : ValidatedOrderLine) : Except PricingError PricedOrderLine :=
  let quantity := validatedOrderLine.quantity
  let price := getProductPrice validatedOrderLine.productCode
  match Price.multiply quantity price with
  | .error e => .error ⟨e.msg⟩
  | .ok linePrice =>
    .ok { orderLineId := validatedOrderLine.orderLineId,
          productCode := validatedOrderLine.productCode,
          quantity := validatedOrderLine.quantity,
          linePrice := linePrice }

/-- Embedding of `priceOrder`. -/
def priceOrder (getProductPrice : ProductCode → ℚ) (validatedOrder : ValidatedOrder) :
    Except PricingError PricedOrder :=
  match splitErr (validatedOrder.lines.map (toPricedOrderLine getProductPrice)) with
  | (_, e :: _) => .error ⟨e.msg⟩
  | (lines, []) =>
    match BillingAmount.sumPrices (lines.map (fun l => l.linePrice)) with
    | .error e => .error ⟨e.msg⟩
    | .ok amountToBill =>
      .ok { orderId := validatedOrder.orderId,
            customerInfo := validatedOrder.customerInfo,
            shippingAddress := validatedOrder.shippingAddress,
            billingAddress := validatedOrder.billingAddress,
            amountToBill := amountToBill,
            lines := lines }

/-- Embedding of `OrderAcknowledgment`. -/
structure OrderAcknowledgment where
  emailAddress : String
  letter : String
deriving DecidableEq

/-- Embedding of `SendResult`. -/
inductive SendResult where
  | sent
  | notSent
deriving DecidableEq

/-- Embedding of `acknowledgeOrder`: never an error, only an optional event. -/
def acknowledgeOrder (createOrderAcknowledgmentLetter : PricedOrder → String)
    (sendOrderAcknowledgment : OrderAcknowledgment → SendResult)
    (pricedOrder : PricedOrder) : Option OrderAcknowledgmentSent :=
  let letter := createOrderAcknowledgmentLetter pricedOrder
  let acknowledgment : OrderAcknowledgment :=
    { emailAddress := pricedOrder.customerInfo.emailAddress, letter := letter }
  match sendOrderAcknowledgment acknowledgment with
  | .sent => some { orderId := pricedOrder.orderId,
                    emailAddress := pricedOrder.customerInfo.emailAddress }
  | .notSent => none

/-- Embedding of `createOrderPlacedEvent` (the identity in the source). -/
def createOrderPlacedEvent (placedOrder : PricedOrder) : PricedOrder := placedOrder

/-- Embedding of `createBillingEvent`. -/
def createBillingEvent (placedOrder : PricedOrder) : Option BillableOrderPlaced :=
  if BillingAmount.value placedOrder.amountToBill > 0 then
    some { orderId := placedOrder.orderId,
           billingAddress := placedOrder.billingAddress,
           amountToBill := placedOrder.amountToBill }
  else none

/-- Embedding of `listOfOption`. -/
def listOfOption {α : Type} : Option α → List α
  | none => []
  | some a => [a]

/-- Embedding of `createEvents`; the TS upcasts of the three event kinds into
the `PlaceOrderEvent` union become explicit constructor maps. -/
def createEvents (pricedOrder : PricedOrder)
    (orderAcknowledgmentEventOpt : Option OrderAcknowledgmentSent) : List PlaceOrderEvent :=
  let acknowledgmentEvents := (listOfOption orderAcknowledgmentEventOpt).map PlaceOrderEvent.acknowledgmentSent
  let orderPlacedEvents := [PlaceOrderEvent.orderPlaced (createOrderPlacedEvent pricedOrder)]
  let billingEvents := (listOfOption (createBillingEvent pricedOrder)).map PlaceOrderEvent.billableOrderPlaced
  acknowledgmentEvents ++ orderPlacedEvents ++ billingEvents

/-- Embedding of `placeOrder` (the returned async closure becomes a plain
function of the unvalidated order; the `ValidationError`/`PricingError`
values flow into the `PlaceOrderError` union via their constructors). -/
def placeOrder (checkProductExists : ProductCode → Bool)
    (checkAddressExists : UnvalidatedAddress → Except AddressValidationError CheckedAddress)
    (getProductPrice : ProductCode → ℚ)
    (createOrderAcknowledgmentLetter : PricedOrder → String)
    (sendOrderAcknowledgment : OrderAcknowledgment → SendResult)
    (unvalidatedOrder : UnvalidatedOrder) : Except PlaceOrderError (List PlaceOrderEvent) :=
  match validateOrder checkProductExists checkAddressExists unvalidatedOrder with
  | .error e => .error (.validation e.msg)
  | .ok validatedOrder =>
    match priceOrder getProductPrice validatedOrder with
    | .error e => .error (.pricing e.msg)
    | .ok pricedOrder =>
      let acknowledgementOption :=
        acknowledgeOrder createOrderAcknowledgmentLetter sendOrderAcknowledgment pricedOrder
      .ok (createEvents pricedOrder acknowledgementOption)

/-! Concrete capabilities and orders used to instantiate the theorems below. -/

/-- Product-existence capability accepting every code. -/
def cp0 : ProductCode → Bool := fun _ => true

/-- Address-existence capability that confirms every address unchanged. -/
def ca0 : UnvalidatedAddress → Except AddressValidationError CheckedAddress :=
  fun a => .ok { addressLine1 := a.addressLine1, addressLine2 := a.addressLine2,
                 addressLine3 := a.addressLine3, addressLine4 := a.addressLine4,
                 city := a.city, zipCode := a.zipCode, state := a.state, country := a.country }

/-- Price-lookup capability returning 5 for every product. -/
def gp0 : ProductCode → ℚ := fun _ => 5

/-- Acknowledgment-letter capability. -/
def letter0 : PricedOrder → String := fun _ => "letter"

/-- Send capability that always reports success. -/
def send0 : OrderAcknowledgment → SendResult := fun _ => .sent

/-- Concrete raw address whose zip code satisfies the source's (defective)
zip pattern, which accepts exactly the strings containing `ddddd`. -/
def uaddr0 : UnvalidatedAddress :=
  { addressLine1 := "line1", addressLine2 := "l2", addressLine3 := "l3", addressLine4 := "l4",
    city := "city", zipCode := "ddddd", state := "st", country := "ct" }

/-- Concrete raw order line whose product code satisfies the source's
(defective) widget pattern, which accepts exactly the strings containing
`Wdddd`. -/
def uline0 : UnvalidatedOrderLine := { orderLineId := "line1", productCode := "Wdddd", quantity := 10 }

/-- Concrete raw order that passes validation. -/
def order0 : UnvalidatedOrder :=
  { orderId := "order1",
    customerInfo := { firstName := "fn", lastName := "ln", emailAddress := "em", vipStatus := "v" },
    shippingAddress := uaddr0, billingAddress := uaddr0, lines := [uline0] }

/-- The same raw order with an empty order id. -/
def orderEmptyId : UnvalidatedOrder := { order0 with orderId := "" }

/-- The validated address produced from `uaddr0`. -/
def vaddr0 : Address :=
  { addressLine1 := "line1", addressLine2 := some "l2", addressLine3 := some "l3",
    addressLine4 := some "l4", city := "city", zipCode := "ddddd" }

/-- The validated order produced from `order0`. -/
def vord0 : ValidatedOrder :=
  { orderId := "order1",
    customerInfo := { name := { firstName := "fn", lastName := "ln" }, emailAddress := "em" },
    shippingAddress := vaddr0, billingAddress := vaddr0,
    lines := [{ orderLineId := "line1", productCode := .widget "Wdddd", quantity := .unit 10 }] }

/-- The priced order produced from `vord0` under `gp0`. -/
def pord0 : PricedOrder :=
  { orderId := "order1",
    customerInfo := { name := { firstName := "fn", lastName := "ln" }, emailAddress := "em" },
    shippingAddress := vaddr0, billingAddress := vaddr0, amountToBill := 50,
    lines := [{ orderLineId := "line1", productCode := .widget "Wdddd", quantity := .unit 10,
                linePrice := 50 }] }

/-- A validated order line that prices to exactly 1000 under `gp0`. -/
def vlineBig : ValidatedOrderLine :=
  { orderLineId := "l", productCode := .widget "Wdddd", quantity := .unit 200 }

/-- A validated order with eleven lines of line price 1000 each, so the
billing total 11000 exceeds the billing bound although every individual
line price is within the price bound. -/
def vordBig : ValidatedOrder := { vord0 with lines := List.replicate 11 vlineBig }

/-- The priced line produced from `vlineBig` under `gp0`. -/
def plineBig : PricedOrderLine :=
  { orderLineId := "l", productCode := .widget "Wdddd", quantity := .unit 200, linePrice := 1000 }

/-- A second price-lookup capability that agrees with `gp0` on widget codes
but differs on gizmo codes. -/
def gp1 : ProductCode → ℚ :=
  fun pc => match pc with
  | .widget _ => 5
  | .gizmo _ => 7

/-- A validated order line whose line price 2500 under `gp0` violates the
price bound 1000. -/
def vlineOver : ValidatedOrderLine :=
  { orderLineId := "l", productCode := .widget "Wdddd", quantity := .unit 500 }

/-- The priced lines produced from `vordBig` under `gp0`. -/
def linesBig : List PricedOrderLine := List.replicate 11 plineBig

/-! Helper lemmas. -/

theorem createEvents_eq (p : PricedOrder) (ackOpt : Option OrderAcknowledgmentSent) :
    createEvents p ackOpt =
      (match ackOpt with
        | some a => [PlaceOrderEvent.acknowledgmentSent a]
        | none => []) ++
      [PlaceOrderEvent.orderPlaced p] ++
      (if 0 < p.amountToBill then
        [PlaceOrderEvent.billableOrderPlaced
          { orderId := p.orderId, billingAddress := p.billingAddress,
            amountToBill := p.amountToBill }]
       else []) := by
  cases ackOpt <;>
    by_cases hb : 0 < p.amountToBill <;>
      simp [createEvents, createBillingEvent, createOrderPlacedEvent, listOfOption,
        BillingAmount.value, hb, not_lt.1]

theorem createEvents_ne_nil (p : PricedOrder) (ackOpt : Option OrderAcknowledgmentSent) :
    createEvents p ackOpt ≠ [] := by
  rw [createEvents_eq]
  cases ackOpt <;> by_cases hb : 0 < p.amountToBill <;> simp [hb]

theorem splitErr_nil {ε α : Type} : splitErr ([] : List (Except ε α)) = ([], []) := rfl

theorem splitErr_cons_ok {ε α : Type} (a : α) (xs : List (Except ε α)) :
    splitErr (.ok a :: xs) = ((splitErr xs).1.cons a, (splitErr xs).2) := by
  simp [splitErr]

theorem splitErr_cons_error {ε α : Type} (e : ε) (xs : List (Except ε α)) :
    splitErr (.error e :: xs) = ((splitErr xs).1, (splitErr xs).2.cons e) := by
  simp [splitErr]

theorem splitErr_map_no_errors {ε α β : Type} (f : β → Except ε α) :
    ∀ l : List β, (splitErr (l.map f)).2 = [] →
      List.Forall₂ (fun b a => f b = Except.ok a) l (splitErr (l.map f)).1
  | [], _ => by simp [splitErr_nil]
  | b :: l, h => by
    match hfb : f b with
    | .error e => simp [List.map_cons, hfb, splitErr_cons_error] at h
    | .ok a =>
      simp only [List.map_cons, hfb, splitErr_cons_ok] at h ⊢
      exact List.Forall₂.cons hfb (splitErr_map_no_errors f l h)

theorem toPricedOrderLine_fields (gp : ProductCode → ℚ) (vl : ValidatedOrderLine)
    (pl : PricedOrderLine) (h : toPricedOrderLine gp vl = .ok pl) :
    pl.orderLineId = vl.orderLineId ∧ pl.productCode = vl.productCode ∧
      pl.quantity = vl.quantity := by
  unfold toPricedOrderLine at h
  match hm : Price.multiply vl.quantity (gp vl.productCode) with
  | .error e => simp [hm] at h
  | .ok lp =>
    simp only [hm] at h
    cases h
    exact ⟨rfl, rfl, rfl⟩

/-! Claim theorems. -/

/-- C4: claimed dispatch of `ProductCode.create` on the first character with
patterns `W` + four digits / `G` + three digits. What the code actually does:
the regexes are built from plain string literals in which `\d` collapses to
`d`, so `"W1234"` and `"G123"` are rejected with `DoesNotMatch`, while a
string containing the literal text `Wdddd` is accepted as a widget code;
`"X1"` still fails with the distinct `UnknownFormat` error and `"W12"` with
`DoesNotMatch`. This contradicts the source's own comments ("The codes for
Widgets start with a `W` and then four digits"). -/
theorem productCode_create_eval :
    ProductCode.create "ProductCode" "W1234"
        = .error (.doesNotMatch "W1234: Must not be null or empty") ∧
    ProductCode.create "ProductCode" "G123"
        = .error (.doesNotMatch "G123: Must not be null or empty") ∧
    ProductCode.create "ProductCode" "X1"
        = .error (.unknownFormat "ProductCode: Format not recognized \x27X1\x27") ∧
    ProductCode.create "ProductCode" "W12"
        = .error (.doesNotMatch "W12: Must not be null or empty") ∧
    ProductCode.create "ProductCode" "Wdddd" = .ok (.widget "Wdddd") :=
  ⟨rfl, rfl, rfl, rfl, rfl⟩

/-- C5: claimed gating of `OrderQuantity.create` by the product code's tag.
The widget cases behave as claimed (500 accepted as a unit quantity, 1500
rejected as `TooBig`) and gizmo quantity 0.01 is rejected as `TooSmall`; but
gizmo quantity 2.5 is rejected with `NotDecimal` instead of being accepted,
because `createDecimal` re-uses the `Number.isInteger` check (and the
kilogram lower bound in the code is 0.5, not the commented 0.05),
contradicting the source's own comment "Constrained to be a decimal between
0.05 and 100.00". -/
theorem orderQuantity_create_eval :
    OrderQuantity.create "OrderQuantity" (.widget "Wdddd") 500 = .ok (.unit 500) ∧
    OrderQuantity.create "OrderQuantity" (.widget "Wdddd") 1500
        = .error (.inl (.tooBig "1500: Must not be greater than 1000")) ∧
    OrderQuantity.create "OrderQuantity" (.gizmo "Gddd") (mkRat 5 2)
        = .error (.inr (.notDecimal "5/2: Must be decimal")) ∧
    OrderQuantity.create "OrderQuantity" (.gizmo "Gddd") (mkRat 1 100)
        = .error (.inr (.tooSmall "1/100: Must not be less than 1/2")) :=
  ⟨rfl, rfl, rfl, rfl⟩

/-- C6 counterexample: the in-range input 5/2 is not returned unchanged by
`createInt` (nor by `createDecimal`): both constructors reject every
non-integer, so "an input within the range is returned unchanged" fails. -/
theorem bounded_constructors_counterexample :
    (1 : ℚ) ≤ mkRat 5 2 ∧ (mkRat 5 2 : ℚ) ≤ 1000 ∧
    ConstrainedType.createInt "OrderQuantity" 1 1000 (mkRat 5 2)
        = .error (.notInt "5/2: Must be integer") ∧
    ConstrainedType.createDecimal "Price" 0 1000 (mkRat 5 2)
        = .error (.notDecimal "5/2: Must be decimal") :=
  ⟨by norm_num [Rat.mkRat_eq_div], by norm_num [Rat.mkRat_eq_div], rfl, rfl⟩

/-- C6 (amended): for `createInt` and `createDecimal`, an input strictly
below the minimum yields `TooSmall`, an input strictly above the maximum
(and not below the minimum) yields `TooBig`, and an in-range input is
returned unchanged exactly when it is an integer — otherwise it yields
`NotInt` resp. `NotDecimal` (both constructors apply the same
`Number.isInteger` test). -/
theorem bounded_constructors_spec (fieldName : String) (minVal maxVal i : ℚ) :
    (i < minVal →
      ∃ m, ConstrainedType.createInt fieldName minVal maxVal i = .error (.tooSmall m)) ∧
    (¬ i < minVal → maxVal < i →
      ∃ m, ConstrainedType.createInt fieldName minVal maxVal i = .error (.tooBig m)) ∧
    (minVal ≤ i → i ≤ maxVal → i.den = 1 →
      ConstrainedType.createInt fieldName minVal maxVal i = .ok i) ∧
    (minVal ≤ i → i ≤ maxVal → i.den ≠ 1 →
      ∃ m, ConstrainedType.createInt fieldName minVal maxVal i = .error (.notInt m)) ∧
    (i < minVal →
      ∃ m, ConstrainedType.createDecimal fieldName minVal maxVal i = .error (.tooSmall m)) ∧
    (¬ i < minVal → maxVal < i →
      ∃ m, ConstrainedType.createDecimal fieldName minVal maxVal i = .error (.tooBig m)) ∧
    (minVal ≤ i → i ≤ maxVal → i.den = 1 →
      ConstrainedType.createDecimal fieldName minVal maxVal i = .ok i) ∧
    (minVal ≤ i → i ≤ maxVal → i.den ≠ 1 →
      ∃ m, ConstrainedType.createDecimal fieldName minVal maxVal i = .error (.notDecimal m)) := by
  refine ⟨fun h1 => ?_, fun h1 h2 => ?_, fun h1 h2 h3 => ?_, fun h1 h2 h3 => ?_,
          fun h1 => ?_, fun h1 h2 => ?_, fun h1 h2 h3 => ?_, fun h1 h2 h3 => ?_⟩
  · simp [ConstrainedType.createInt, h1]
  · simp [ConstrainedType.createInt, h1, h2]
  · simp [ConstrainedType.createInt, not_lt.2 h1, not_lt.2 h2, h3]
  · simp [ConstrainedType.createInt, not_lt.2 h1, not_lt.2 h2, h3]
  · simp [ConstrainedType.createDecimal, h1]
  · simp [ConstrainedType.createDecimal, h1, h2]
  · simp [ConstrainedType.createDecimal, not_lt.2 h1, not_lt.2 h2, h3]
  · simp [ConstrainedType.createDecimal, not_lt.2 h1, not_lt.2 h2, h3]

/-- C6 witness: instantiation of the amended statement at concrete inputs. -/
theorem bounded_constructors_spec_witness :
    ConstrainedType.createInt "Qty" 1 1000 500 = .ok 500 ∧
    (∃ m, ConstrainedType.createDecimal "Qty" 1 1000 (mkRat 5 2) = .error (.notDecimal m)) := by
  have h := bounded_constructors_spec "Qty" 1 1000 500
  have h2 := bounded_constructors_spec "Qty" 1 1000 (mkRat 5 2)
  exact ⟨h.2.2.1 (by norm_num) (by norm_num) (by decide),
         h2.2.2.2.2.2.2.2 (by norm_num [Rat.mkRat_eq_div]) (by norm_num [Rat.mkRat_eq_div])
           (by decide)⟩

/-- C8 counterexample: an address whose optional second line is the empty
string does not validate with that line absent — `toAddress` uses the
non-optional bounded-string constructor for every line, so it fails with a
`ValidationError`. -/
theorem toAddress_emptyLine2_counterexample :
    toAddress { addressLine1 := "line1", addressLine2 := "", addressLine3 := "x",
                addressLine4 := "x", city := "c", zipCode := "ddddd",
                state := "s", country := "c" }
      = .error ⟨"AddressLine2 must not be null or undefined or empty"⟩ := rfl

/-- C8 (amended): `createStringOption` returns the explicit absent result
for an empty input rather than an error, `TooLong` when the length exceeds
the maximum, and otherwise the string unchanged; however the validation
step's `toAddress` does NOT use it for the optional address lines — it
applies the non-optional `String50.create` to lines 2–4, so an address with
an empty optional line fails validation instead of validating with the line
absent. -/
theorem createStringOption_spec (fieldName : String) (maxLen : Nat) (str : String) :
    (str = "" → ConstrainedType.createStringOption fieldName maxLen str = .absent) ∧
    (str ≠ "" → str.length ≤ maxLen →
      ConstrainedType.createStringOption fieldName maxLen str = .value str) ∧
    (str ≠ "" → maxLen < str.length →
      ∃ m, ConstrainedType.createStringOption fieldName maxLen str = .tooLong m) ∧
    (∀ a : CheckedAddress, a.addressLine1 ≠ "" → a.addressLine1.length ≤ 50 →
      a.addressLine2 = "" → ∃ m, toAddress a = .error (ValidationError.mk m)) := by
  refine ⟨fun h1 => ?_, fun h1 h2 => ?_, fun h1 h2 => ?_, fun a h1 h2 h3 => ?_⟩
  · simp [ConstrainedType.createStringOption, ConstrainedType.createString, isEmptyString, h1]
  · simp [ConstrainedType.createStringOption, ConstrainedType.createString, isEmptyString,
      h1, not_lt.2 h2]
  · simp [ConstrainedType.createStringOption, ConstrainedType.createString, isEmptyString, h1, h2]
  · simp [toAddress, String50.create, ConstrainedType.createString, isEmptyString,
      h1, not_lt.2 h2, h3]

/-- C8 witness: instantiation of the amended statement at concrete inputs. -/
theorem createStringOption_spec_witness :
    ConstrainedType.createStringOption "AddressLine2" 50 "" = .absent ∧
    (∃ m, toAddress { addressLine1 := "line1", addressLine2 := "", addressLine3 := "x",
                      addressLine4 := "x", city := "c", zipCode := "ddddd",
                      state := "s", country := "c" } = .error (ValidationError.mk m)) := by
  have h := createStringOption_spec "AddressLine2" 50 ""
  have h2 := createStringOption_spec "AddressLine2" 50 ""
  exact ⟨h.1 rfl, h2.2.2.2 _ (by decide) (by decide) rfl⟩

/-- C2: `createEvents` always contains the order-placed event; it contains a
billable-order-placed event iff the billing amount is strictly positive; it
contains the acknowledgment-sent event iff one was passed in; and the order
is fixed: acknowledgment event first, then order-placed, then billing. -/
theorem createEvents_spec (p : PricedOrder) (ackOpt : Option OrderAcknowledgmentSent) :
    createEvents p ackOpt =
      (match ackOpt with
        | some a => [PlaceOrderEvent.acknowledgmentSent a]
        | none => []) ++
      [PlaceOrderEvent.orderPlaced p] ++
      (if 0 < p.amountToBill then
        [PlaceOrderEvent.billableOrderPlaced
          { orderId := p.orderId, billingAddress := p.billingAddress,
            amountToBill := p.amountToBill }]
       else []) ∧
    PlaceOrderEvent.orderPlaced p ∈ createEvents p ackOpt ∧
    ((∃ b, PlaceOrderEvent.billableOrderPlaced b ∈ createEvents p ackOpt) ↔
      0 < p.amountToBill) ∧
    (∀ a, PlaceOrderEvent.acknowledgmentSent a ∈ createEvents p ackOpt ↔ ackOpt = some a) := by
  have hmain := createEvents_eq p ackOpt
  refine ⟨hmain, ?_, ?_, ?_⟩
  · rw [hmain]; simp
  · rw [hmain]
    cases ackOpt <;> by_cases hb : 0 < p.amountToBill <;> simp [hb]
  · intro a
    rw [hmain]
    cases ackOpt <;> by_cases hb : 0 < p.amountToBill <;> simp [hb] <;> exact comm

/-- C9: `priceOrder` is a pure function of the validated order and of the
values the price-lookup capability takes on the order's own product codes:
two runs over the same validated order with price functions that agree on
every line's product code give identical results (in particular, two runs
with the same price function give identical priced orders). -/
theorem priceOrder_pure (gp gp2 : ProductCode → ℚ) (v : ValidatedOrder)
    (h : ∀ vl ∈ v.lines, gp vl.productCode = gp2 vl.productCode) :
    priceOrder gp v = priceOrder gp2 v := by
  have hmap : v.lines.map (toPricedOrderLine gp) = v.lines.map (toPricedOrderLine gp2) :=
    List.map_congr_left (fun vl hvl => by unfold toPricedOrderLine; rw [h vl hvl])
  unfold priceOrder
  rw [hmap]

/-- C9 witness: instantiation at `vord0` with the two concrete price
functions `gp0` and `gp1`, which agree on widget codes. -/
theorem priceOrder_pure_witness : priceOrder gp0 vord0 = priceOrder gp1 vord0 :=
  priceOrder_pure gp0 gp1 vord0 (by
    intro vl hvl
    simp only [vord0, List.mem_singleton] at hvl
    simp [hvl, gp0, gp1])

/-- C10: whenever `priceOrder` succeeds, the priced order keeps the
validated order's `orderId`, `customerInfo`, `shippingAddress` and
`billingAddress` unchanged, and the priced line list corresponds
pairwise, in order (hence with equal length), to the validated lines,
each priced line keeping `orderLineId`, `productCode` and `quantity`
of its validated line (only `linePrice` and `amountToBill` are new). -/
theorem priceOrder_frame (gp : ProductCode → ℚ) (v : ValidatedOrder) (p : PricedOrder)
    (h : priceOrder gp v = .ok p) :
    p.orderId = v.orderId ∧ p.customerInfo = v.customerInfo ∧
    p.shippingAddress = v.shippingAddress ∧ p.billingAddress = v.billingAddress ∧
    p.lines.length = v.lines.length ∧
    List.Forall₂ (fun vl pl => pl.orderLineId = vl.orderLineId ∧
      pl.productCode = vl.productCode ∧ pl.quantity = vl.quantity) v.lines p.lines := by
  unfold priceOrder at h
  split at h
  · simp at h
  · rename_i lines heq
    split at h
    · simp at h
    · rename_i amt hsum
      simp only [Except.ok.injEq] at h
      subst h
      have hsnd : (splitErr (v.lines.map (toPricedOrderLine gp))).2 = [] := by rw [heq]
      have hfa := splitErr_map_no_errors (toPricedOrderLine gp) v.lines hsnd
      rw [heq] at hfa
      have hfields := hfa.imp (fun a b hok => toPricedOrderLine_fields gp a b hok)
      exact ⟨rfl, rfl, rfl, rfl, hfields.length_eq.symm, hfields⟩

/-- C10 witness: instantiation at the concrete validated order `vord0`,
price function `gp0` and resulting priced order `pord0`. -/
theorem priceOrder_frame_witness :
    pord0.orderId = vord0.orderId ∧ pord0.customerInfo = vord0.customerInfo ∧
    pord0.shippingAddress = vord0.shippingAddress ∧
    pord0.billingAddress = vord0.billingAddress ∧
    pord0.lines.length = vord0.lines.length ∧
    List.Forall₂ (fun vl pl => pl.orderLineId = vl.orderLineId ∧
      pl.productCode = vl.productCode ∧ pl.quantity = vl.quantity)
      vord0.lines pord0.lines :=
  priceOrder_frame gp0 vord0 pord0 (by
    norm_num [priceOrder, splitErr, toPricedOrderLine, Price.multiply, Price.create,
      ConstrainedType.createDecimal, BillingAmount.sumPrices, BillingAmount.create,
      OrderQuantity.quantity, gp0, vord0, pord0, List.filterMap_cons, List.filterMap_nil,
      List.map_cons, List.map_nil, List.foldl_cons, List.foldl_nil])

/-- C1: for every unvalidated order and all supplied capabilities,
`placeOrder` results in exactly one of: a validation error, a pricing
error, or a non-empty event list (never a remote-service error); a
validation or pricing failure is surfaced immediately as that specific
error, and once validation and pricing have succeeded — i.e. once the
acknowledgment step is reached — the workflow always succeeds with the
assembled events (`acknowledgeOrder` returns only an optional event,
never a workflow error). -/
theorem placeOrder_outcomes (cp : ProductCode → Bool)
    (ca : UnvalidatedAddress → Except AddressValidationError CheckedAddress)
    (gp : ProductCode → ℚ) (letter : PricedOrder → String)
    (send : OrderAcknowledgment → SendResult) (o : UnvalidatedOrder) :
    ((∃ m, placeOrder cp ca gp letter send o = .error (.validation m)) ∨
     (∃ m, placeOrder cp ca gp letter send o = .error (.pricing m)) ∨
     (∃ evts, placeOrder cp ca gp letter send o = .ok evts ∧ evts ≠ [])) ∧
    (∀ e, validateOrder cp ca o = .error e →
      placeOrder cp ca gp letter send o = .error (.validation e.msg)) ∧
    (∀ v e, validateOrder cp ca o = .ok v → priceOrder gp v = .error e →
      placeOrder cp ca gp letter send o = .error (.pricing e.msg)) ∧
    (∀ v p, validateOrder cp ca o = .ok v → priceOrder gp v = .ok p →
      placeOrder cp ca gp letter send o
          = .ok (createEvents p (acknowledgeOrder letter send p)) ∧
        createEvents p (acknowledgeOrder letter send p) ≠ []) := by
  have hval : ∀ e, validateOrder cp ca o = .error e →
      placeOrder cp ca gp letter send o = .error (.validation e.msg) := by
    intro e he
    simp [placeOrder, he]
  have hpri : ∀ v e, validateOrder cp ca o = .ok v → priceOrder gp v = .error e →
      placeOrder cp ca gp letter send o = .error (.pricing e.msg) := by
    intro v e hv hp
    simp [placeOrder, hv, hp]
  have hok : ∀ v p, validateOrder cp ca o = .ok v → priceOrder gp v = .ok p →
      placeOrder cp ca gp letter send o
          = .ok (createEvents p (acknowledgeOrder letter send p)) ∧
        createEvents p (acknowledgeOrder letter send p) ≠ [] := by
    intro v p hv hp
    refine ⟨by simp [placeOrder, hv, hp], createEvents_ne_nil p _⟩
  refine ⟨?_, hval, hpri, hok⟩
  cases hv : validateOrder cp ca o with
  | error e => exact Or.inl ⟨e.msg, hval e hv⟩
  | ok v =>
    cases hp : priceOrder gp v with
    | error e => exact Or.inr (Or.inl ⟨e.msg, hpri v e hv hp⟩)
    | ok p =>
      exact Or.inr (Or.inr ⟨createEvents p (acknowledgeOrder letter send p),
        (hok v p hv hp).1, (hok v p hv hp).2⟩)

/-- C1 witness: the success branch instantiated at the concrete order
`order0` and capabilities, discharging both hypotheses by evaluation. -/
theorem placeOrder_outcomes_witness :
    placeOrder cp0 ca0 gp0 letter0 send0 order0
        = .ok (createEvents pord0 (acknowledgeOrder letter0 send0 pord0)) ∧
      createEvents pord0 (acknowledgeOrder letter0 send0 pord0) ≠ [] :=
  (placeOrder_outcomes cp0 ca0 gp0 letter0 send0 order0).2.2.2 vord0 pord0 rfl
    (by norm_num [priceOrder, splitErr, toPricedOrderLine, Price.multiply, Price.create,
      ConstrainedType.createDecimal, BillingAmount.sumPrices, BillingAmount.create,
      OrderQuantity.quantity, gp0, vord0, pord0, List.filterMap_cons, List.filterMap_nil,
      List.map_cons, List.map_nil, List.foldl_cons, List.foldl_nil])

/-- C3: `validateOrder` aborts on the first failing step and returns that
step's specific `ValidationError` (and hence no validated order): a failing
order id is returned as-is; a failing customer info after a succeeding
order id is returned as-is; likewise for the checked shipping address, the
shipping address fields, the checked billing address and the billing
address fields; when all of these succeed, the line results are collected
by `splitErr` and the first collected line error is returned; and an empty
order id makes the whole `placeOrder` workflow return the corresponding
`ValidationError` whatever the pricing and acknowledgment capabilities are
(so no pricing lookup or acknowledgment send can influence the result). -/
theorem validateOrder_first_error (cp : ProductCode → Bool)
    (ca : UnvalidatedAddress → Except AddressValidationError CheckedAddress)
    (o : UnvalidatedOrder) :
    (∀ e, toOrderId o.orderId = .error e → validateOrder cp ca o = .error e) ∧
    (∀ oid e, toOrderId o.orderId = .ok oid →
      toCustomerInfo o.customerInfo = .error e → validateOrder cp ca o = .error e) ∧
    (∀ oid ci e, toOrderId o.orderId = .ok oid → toCustomerInfo o.customerInfo = .ok ci →
      toCheckedAddress ca o.shippingAddress = .error e → validateOrder cp ca o = .error e) ∧
    (∀ oid ci csa e, toOrderId o.orderId = .ok oid → toCustomerInfo o.customerInfo = .ok ci →
      toCheckedAddress ca o.shippingAddress = .ok csa → toAddress csa = .error e →
      validateOrder cp ca o = .error e) ∧
    (∀ oid ci csa sa e, toOrderId o.orderId = .ok oid →
      toCustomerInfo o.customerInfo = .ok ci →
      toCheckedAddress ca o.shippingAddress = .ok csa → toAddress csa = .ok sa →
      toCheckedAddress ca o.billingAddress = .error e → validateOrder cp ca o = .error e) ∧
    (∀ oid ci csa sa cba e, toOrderId o.orderId = .ok oid →
      toCustomerInfo o.customerInfo = .ok ci →
      toCheckedAddress ca o.shippingAddress = .ok csa → toAddress csa = .ok sa →
      toCheckedAddress ca o.billingAddress = .ok cba → toAddress cba = .error e →
      validateOrder cp ca o = .error e) ∧
    (∀ oid ci csa sa cba ba e rest, toOrderId o.orderId = .ok oid →
      toCustomerInfo o.customerInfo = .ok ci →
      toCheckedAddress ca o.shippingAddress = .ok csa → toAddress csa = .ok sa →
      toCheckedAddress ca o.billingAddress = .ok cba → toAddress cba = .ok ba →
      (splitErr (o.lines.map (toValidateOrderLine cp))).2 = e :: rest →
      validateOrder cp ca o = .error e) ∧
    (o.orderId = "" → ∀ gp letter send, placeOrder cp ca gp letter send o
      = .error (.validation "OrderId must not be null or undefined or empty")) := by
  have h1 : ∀ e, toOrderId o.orderId = .error e → validateOrder cp ca o = .error e := by
    intro e he
    simp [validateOrder, he]
  refine ⟨h1, ?_, ?_, ?_, ?_, ?_, ?_, ?_⟩
  · intro oid e hoid he
    simp [validateOrder, hoid, he]
  · intro oid ci e hoid hci he
    simp [validateOrder, hoid, hci, he]
  · intro oid ci csa e hoid hci hcsa he
    simp [validateOrder, hoid, hci, hcsa, he]
  · intro oid ci csa sa e hoid hci hcsa hsa he
    simp [validateOrder, hoid, hci, hcsa, hsa, he]
  · intro oid ci csa sa cba e hoid hci hcsa hsa hcba he
    simp [validateOrder, hoid, hci, hcsa, hsa, hcba, he]
  · intro oid ci csa sa cba ba e rest hoid hci hcsa hsa hcba hba hsp
    rcases heq : splitErr (o.lines.map (toValidateOrderLine cp)) with ⟨lines, errs⟩
    rw [heq] at hsp
    simp only at hsp
    subst hsp
    simp [validateOrder, hoid, hci, hcsa, hsa, hcba, hba, heq]
  · intro hid gp letter send
    have he : toOrderId o.orderId
        = .error ⟨"OrderId must not be null or undefined or empty"⟩ := by
      rw [hid]; rfl
    have hv := h1 _ he
    simp [placeOrder, hv]

/-- C3 witness: the empty-order-id conjunct instantiated at the concrete
order `orderEmptyId` and capabilities. -/
theorem validateOrder_first_error_witness :
    placeOrder cp0 ca0 gp0 letter0 send0 orderEmptyId
      = .error (.validation "OrderId must not be null or undefined or empty") :=
  (validateOrder_first_error cp0 ca0 orderEmptyId).2.2.2.2.2.2.2 rfl gp0 letter0 send0

/-- C7: in `priceOrder`, each line price is `quantity × unit price`
re-checked by the bounded-decimal constructor, and any failure of that
check becomes a `PricingError` carrying the underlying message (in
particular a product exceeding the price bound 1000); the first line
error short-circuits the whole order; and when every line succeeds, the
line prices are summed and a sum exceeding the billing bound 10000 yields
a `PricingError` even though each line price was individually in bounds. -/
theorem priceOrder_error_paths (gp : ProductCode → ℚ) (v : ValidatedOrder) :
    (∀ (vl : ValidatedOrderLine) e,
      Price.multiply vl.quantity (gp vl.productCode) = .error e →
      toPricedOrderLine gp vl = .error ⟨e.msg⟩) ∧
    (∀ vl : ValidatedOrderLine, 1000 < vl.quantity.quantity * gp vl.productCode →
      ∃ m, toPricedOrderLine gp vl = .error (PricingError.mk m)) ∧
    (∀ e rest, (splitErr (v.lines.map (toPricedOrderLine gp))).2 = e :: rest →
      priceOrder gp v = .error ⟨e.msg⟩) ∧
    (∀ lines, splitErr (v.lines.map (toPricedOrderLine gp)) = (lines, []) →
      10000 < (lines.map fun l => l.linePrice).foldl (fun a b => a + b) 0 →
      ∃ m, priceOrder gp v = .error (PricingError.mk m)) := by
  refine ⟨?_, ?_, ?_, ?_⟩
  · intro vl e he
    simp [toPricedOrderLine, he]
  · intro vl hgt
    have hnn : ¬ vl.quantity.quantity * gp vl.productCode < 0 := by
      push_neg
      exact le_trans (by norm_num) (le_of_lt hgt)
    simp [toPricedOrderLine, Price.multiply, Price.create, ConstrainedType.createDecimal,
      hnn, hgt]
  · intro e rest hsp
    rcases heq : splitErr (v.lines.map (toPricedOrderLine gp)) with ⟨lines, errs⟩
    rw [heq] at hsp
    simp only at hsp
    subst hsp
    simp [priceOrder, heq]
  · intro lines heq hsum
    have hnn : ¬ (lines.map fun l => l.linePrice).foldl (fun a b => a + b) 0 < 0 := by
      push_neg
      exact le_trans (by norm_num) (le_of_lt hsum)
    simp [priceOrder, heq, BillingAmount.sumPrices, BillingAmount.create,
      ConstrainedType.createDecimal, hnn, hsum]

/-- C7 witness: a single line of price 2500 violates the price bound, and
the eleven-line order `vordBig`, whose line prices of 1000 each are all in
bounds, fails pricing because the sum 11000 exceeds the billing bound. -/
theorem priceOrder_error_paths_witness :
    (∃ m, toPricedOrderLine gp0 vlineOver = .error (PricingError.mk m)) ∧
    (∃ m, priceOrder gp0 vordBig = .error (PricingError.mk m)) := by
  refine ⟨(priceOrder_error_paths gp0 vordBig).2.1 vlineOver
      (by norm_num [vlineOver, OrderQuantity.quantity, gp0]), ?_⟩
  have h := (priceOrder_error_paths gp0 vordBig).2.2.2 linesBig
  refine h ?_ ?_
  · norm_num [vordBig, vord0, vlineBig, linesBig, plineBig, List.replicate, splitErr,
      toPricedOrderLine, Price.multiply, Price.create, ConstrainedType.createDecimal,
      OrderQuantity.quantity, gp0, List.filterMap_cons, List.filterMap_nil,
      List.map_cons, List.map_nil]
  · norm_num [linesBig, plineBig, List.replicate, List.map_cons, List.map_nil,
      List.foldl_cons, List.foldl_nil]
